import Mathlib

/-!
Shallow embedding of the OpenComponent generation pipeline
(`generate-oc-daytona` script of the lovable-clone-oc repository).

The script drives a multi-stage pipeline inside a remote Daytona sandbox:
check credentials, acquire a sandbox (new or by id), install tooling,
derive a component name from the prompt, scaffold with `oc init`, run an
agentic generation script, build with `oc build`, publish with
`oc publish`, and probe the published URL.  External effects (the Daytona
SDK and the commands it executes) are modelled by a `World` oracle; the
pipeline itself is the deterministic function `runPipeline`, which also
returns the ordered trace of boundary actions it performed.
-/

/-- The registry base URL constant (source line 8). -/
def REGISTRY_URL : String := "http://host.docker.internal:3030"

/-- Result of `sandbox.process.executeCommand`: exit code and combined output. -/
structure ExecResult where
  exitCode : Int
  result : String
deriving DecidableEq

/-- A remote command as issued through `executeCommand(command, cwd, env?, timeoutMs?)`:
the command string, the working directory, whether an env object is passed,
and the optional timeout in milliseconds. -/
structure CmdSpec where
  command : String
  cwd : String
  passesEnv : Bool
  timeoutMs : Option Nat
deriving DecidableEq

/-- Actions at the sandbox control boundary.  `deleteSandbox` and
`stopSandbox` are operations the provider offers; whether the pipeline
ever emits them is a theorem, not an assumption. -/
inductive PAction where
  | listSandboxes
  | createSandbox
  | getRootDir
  | exec (cmd : CmdSpec)
  | deleteSandbox
  | stopSandbox
deriving DecidableEq

/-- Teardown actions: those that destroy or stop the sandbox. -/
def PAction.isTeardown : PAction → Bool
  | .deleteSandbox => true
  | .stopSandbox => true
  | _ => false

/-- The environment the pipeline runs against: credentials, the provider's
known sandboxes, the id a fresh sandbox would get, the sandbox root
directory, the behaviour of the generation script (whether the agent query
throws, and which files exist afterwards), and an oracle for every other
remote command's result. -/
structure World where
  daytonaApiKey : Option String
  anthropicApiKey : Option String
  sandboxes : List String
  newSandboxId : String
  rootDir : String
  queryThrew : Bool
  hasViewFile : Bool
  hasPackageJson : Bool
  execResult : CmdSpec → ExecResult

/-- The structured result returned on success (source lines 357-364). -/
structure PipelineResult where
  success : Bool
  sandboxId : String
  componentName : String
  componentDir : String
  componentUrl : String
  registryUrl : String
deriving DecidableEq

/-- How a run ends: a `process.exit`, a thrown error (its message), or the
returned result record. -/
inductive Outcome where
  | exited (code : Nat)
  | threw (msg : String)
  | ok (r : PipelineResult)
deriving DecidableEq

/-- JavaScript truthiness of an optional string: `undefined` and the empty
string are falsy. -/
def jsTruthy : Option String → Bool
  | none => false
  | some s => s != ""

/- ### Component-name derivation (source lines 80-88) -/

/-- Characters kept as-is by the slug derivation: lowercase letters and digits. -/
def isLowerAlnum (c : Char) : Bool :=
  ('a' ≤ c && c ≤ 'z') || ('0' ≤ c && c ≤ '9')

/-- Whitespace as matched by the regex class in the source
(ASCII range; the source also matches rare Unicode spaces, which does not
affect the claims settled here). -/
def isJsSpace (c : Char) : Bool :=
  c == ' ' || c == '\t' || c == '\n' || c == '\r' || c == '\x0b' || c == '\x0c'

/-- A character allowed in the final slug. -/
def isSlugChar (c : Char) : Bool :=
  isLowerAlnum c || c == '-'

/-- `replace(/[^a-z0-9\s-]/g, "")`: keep lowercase alphanumerics,
whitespace and hyphens. -/
def stripSpecials (l : List Char) : List Char :=
  l.filter (fun c => isLowerAlnum c || isJsSpace c || c == '-')

/-- `replace(/\s+/g, "-")`: every maximal run of whitespace becomes a
single hyphen.  The boolean tracks whether we are inside a whitespace run. -/
def collapseWsAux : Bool → List Char → List Char
  | _, [] => []
  | inRun, c :: rest =>
    if isJsSpace c then
      (if inRun then [] else ['-']) ++ collapseWsAux true rest
    else
      c :: collapseWsAux false rest

def collapseWs (l : List Char) : List Char := collapseWsAux false l

/-- `replace(/^-+|-+$/g, "")`: drop the leading and the trailing run of hyphens. -/
def trimHyphens (l : List Char) : List Char :=
  ((l.dropWhile (fun c => c == '-')).reverse.dropWhile (fun c => c == '-')).reverse

/-- The slug pipeline applied to the characters of a prompt:
lowercase, strip, collapse whitespace, truncate to 30, trim hyphens. -/
def slugifyChars (l : List Char) : List Char :=
  trimHyphens ((collapseWs (stripSpecials (l.map Char.toLower))).take 30)

def slugify (p : String) : String := ⟨slugifyChars p.toList⟩

/-- Source lines 80-88: `prompt ? <slug> : "generated-component"` followed by
`componentName = defaultComponentName || "generated-component"`.
An absent prompt and an empty prompt are both falsy in the source. -/
def componentNameOf (prompt : Option String) : String :=
  let defaultComponentName :=
    match prompt with
    | some p => if p = "" then "generated-component" else slugify p
    | none => "generated-component"
  if defaultComponentName = "" then "generated-component" else defaultComponentName

/- ### The remote commands the pipeline issues -/

/-- `npm install -g oc` with a 3-minute timeout (source lines 56-61). -/
def installOcCmd (rootDir : String) : CmdSpec :=
  { command := "npm install -g oc", cwd := rootDir, passesEnv := false,
    timeoutMs := some 180000 }

/-- The agent SDK install with a 3-minute timeout (source lines 70-75).
Its exit code is not inspected by the source. -/
def installSdkCmd (rootDir : String) : CmdSpec :=
  { command := "npm install @anthropic-ai/claude-code@latest", cwd := rootDir,
    passesEnv := false, timeoutMs := some 180000 }

/-- `oc init <name>` — the scaffold command (source lines 95-98).
The source passes no timeout argument here. -/
def ocInitCmd (componentName rootDir : String) : CmdSpec :=
  { command := "oc init " ++ componentName, cwd := rootDir, passesEnv := false,
    timeoutMs := none }

/-- Writing the generation script via a heredoc (source lines 236-241); the
script body is data written to a file, elided here.  No timeout argument. -/
def writeScriptCmd (componentDir : String) : CmdSpec :=
  { command := "cat > generate-component.js", cwd := componentDir,
    passesEnv := false, timeoutMs := none }

/-- Running the generation script with the API key in the env and a
10-minute timeout (source lines 249-257). -/
def runGenCmd (componentDir : String) : CmdSpec :=
  { command := "node generate-component.js", cwd := componentDir,
    passesEnv := true, timeoutMs := some 600000 }

/-- The directory-listing validation step (source lines 268-271); output is
only logged.  Shell quoting simplified; no timeout argument. -/
def checkFilesCmd (componentDir : String) : CmdSpec :=
  { command := "ls -la && echo --- && cat package.json | head -10",
    cwd := componentDir, passesEnv := false, timeoutMs := none }

/-- `oc build .` with a 3-minute timeout (source lines 276-281). -/
def buildCmd (componentDir : String) : CmdSpec :=
  { command := "oc build .", cwd := componentDir, passesEnv := false,
    timeoutMs := some 180000 }

/-- The verbose diagnostic rebuild issued after a failed build
(source lines 286-289); no timeout argument. -/
def buildVerboseCmd (componentDir : String) : CmdSpec :=
  { command := "oc build . --verbose", cwd := componentDir, passesEnv := false,
    timeoutMs := none }

/-- `oc publish . <registry>` with a 3-minute timeout (source lines 299-304). -/
def publishCmd (componentDir : String) : CmdSpec :=
  { command := "oc publish . " ++ REGISTRY_URL, cwd := componentDir,
    passesEnv := false, timeoutMs := some 180000 }

/-- The registry reachability probe issued after a failed publish
(source lines 310-313); shell quoting simplified; no timeout argument. -/
def checkRegistryCmd (componentDir : String) : CmdSpec :=
  { command := "curl -f " ++ REGISTRY_URL ++ " || echo Registry not accessible",
    cwd := componentDir, passesEnv := false, timeoutMs := none }

/-- The verification probe of the published component URL
(source lines 325-328); shell quoting simplified; no timeout argument. -/
def testComponentCmd (componentUrl componentDir : String) : CmdSpec :=
  { command := "curl -f " ++ componentUrl
      ++ " -H Accept: application/json || echo Component not accessible",
    cwd := componentDir, passesEnv := false, timeoutMs := none }

/-- Behaviour of the generation script `generate-component.js`
(source lines 109-233): if the agent query throws, the script exits 1;
otherwise it checks whether a view file (`view.js`/`view.jsx`/`view.ts`)
and `package.json` exist and, when either is missing, only prints an
incomplete-structure warning (source lines 221-224) — the exit code stays 0.
Returns (exit code, whether the warning was printed). -/
def genScriptRun (queryThrew hasView hasPackage : Bool) : Int × Bool :=
  if queryThrew then (1, false)
  else (0, !(hasView && hasPackage))

/- ### The pipeline -/

/-- Stages 2-10 of `generateOpenComponentInDaytona`, entered once a sandbox
has been acquired (source lines 49-364).  `tr0` is the trace of the
acquisition actions.  The catch block (lines 366-387) only rethrows: its
debug command references `rootDir`, a `const` scoped to the `try` block, so
evaluating its arguments throws a `ReferenceError` that the inner empty
catch swallows — the debug command is never actually executed. -/
def afterSandbox (w : World) (sandboxId : String) (prompt : Option String)
    (tr0 : List PAction) : Outcome × List PAction :=
  let rootDir := w.rootDir
  let name := componentNameOf prompt
  let dir := rootDir ++ "/" ++ name
  let tr1 := tr0 ++ [PAction.getRootDir, PAction.exec (installOcCmd rootDir)]
  if (w.execResult (installOcCmd rootDir)).exitCode ≠ 0 then
    (Outcome.threw "Failed to install OpenComponents CLI", tr1)
  else
    let tr2 := tr1 ++ [PAction.exec (installSdkCmd rootDir),
                       PAction.exec (ocInitCmd name rootDir)]
    if (w.execResult (ocInitCmd name rootDir)).exitCode ≠ 0 then
      (Outcome.threw "Failed to initialize OpenComponent", tr2)
    else
      let tr3 := tr2 ++ [PAction.exec (writeScriptCmd dir),
                         PAction.exec (runGenCmd dir)]
      if (genScriptRun w.queryThrew w.hasViewFile w.hasPackageJson).1 ≠ 0 then
        (Outcome.threw "Component generation failed", tr3)
      else
        let tr4 := tr3 ++ [PAction.exec (checkFilesCmd dir),
                           PAction.exec (buildCmd dir)]
        if (w.execResult (buildCmd dir)).exitCode ≠ 0 then
          (Outcome.threw "Component build failed",
            tr4 ++ [PAction.exec (buildVerboseCmd dir)])
        else
          let tr5 := tr4 ++ [PAction.exec (publishCmd dir)]
          if (w.execResult (publishCmd dir)).exitCode ≠ 0 then
            (Outcome.threw "Component publish failed - check if registry is running",
              tr5 ++ [PAction.exec (checkRegistryCmd dir)])
          else
            (Outcome.ok
                (PipelineResult.mk true sandboxId name dir
                  (REGISTRY_URL ++ name) REGISTRY_URL),
              tr5 ++ [PAction.exec (testComponentCmd (REGISTRY_URL ++ name) dir)])

/-- `generateOpenComponentInDaytona(sandboxIdArg?, prompt?)`
(source lines 10-388): credential check (lines 16-19), then sandbox
acquisition by id lookup or creation (lines 31-47), then the staged
pipeline.  Returns the outcome together with the ordered trace of
boundary actions. -/
def runPipeline (w : World) (sandboxIdArg prompt : Option String) :
    Outcome × List PAction :=
  if !jsTruthy w.daytonaApiKey || !jsTruthy w.anthropicApiKey then
    (Outcome.exited 1, [])
  else
    match sandboxIdArg with
    | some sid =>
      if sid != "" then
        if w.sandboxes.contains sid then
          afterSandbox w sid prompt [PAction.listSandboxes]
        else
          (Outcome.threw ("Sandbox " ++ sid ++ " not found"), [PAction.listSandboxes])
      else
        afterSandbox w w.newSandboxId prompt [PAction.createSandbox]
    | none =>
      afterSandbox w w.newSandboxId prompt [PAction.createSandbox]

/- ### The entrypoint (source lines 391-433) -/

/-- The fixed default prompt (source line 410). -/
def DEFAULT_PROMPT : String :=
  "Create a beautiful, modern button component with multiple variants (primary, secondary, outline) and different sizes. Include hover effects and proper accessibility features."

/-- Hexadecimal digit, case-insensitive — the regex uses the `i` flag. -/
def isHexDigit (c : Char) : Bool :=
  ('0' ≤ c && c ≤ '9') || ('a' ≤ c && c ≤ 'f') || ('A' ≤ c && c ≤ 'F')

/-- Consume exactly `n` hex digits, returning the rest. -/
def hexChunk : Nat → List Char → Option (List Char)
  | 0, rest => some rest
  | _ + 1, [] => none
  | n + 1, c :: rest => if isHexDigit c then hexChunk n rest else none

/-- Consume a single hyphen. -/
def dashChunk : List Char → Option (List Char)
  | '-' :: rest => some rest
  | _ => none

/-- The anchored UUID regex of source lines 399-400:
eight hex digits, then three groups of four and one of twelve,
separated by hyphens, matching the whole string. -/
def uuidRegexTest (s : String) : Bool :=
  (((((((((hexChunk 8 s.toList).bind dashChunk).bind (hexChunk 4)).bind
    dashChunk).bind (hexChunk 4)).bind dashChunk).bind (hexChunk 4)).bind
    dashChunk).bind (hexChunk 12)) == some []

/-- Argument parsing of `main` (source lines 392-411): a leading
UUID-shaped argument is the sandbox id and the rest joined by spaces is the
prompt; otherwise everything joined is the prompt; a missing or empty
prompt falls back to the default. -/
def parseArgs (args : List String) : Option String × String :=
  let pair : Option String × Option String :=
    match args with
    | [] => (none, none)
    | a0 :: rest =>
      if uuidRegexTest a0 then (some a0, some (String.intercalate " " rest))
      else (none, some (String.intercalate " " args))
  let prompt :=
    match pair.2 with
    | none => DEFAULT_PROMPT
    | some p => if p = "" then DEFAULT_PROMPT else p
  (pair.1, prompt)

/-- The parsing rule as the specification states it: if the first
positional argument matches the UUID pattern it is taken as the existing
sandbox id and the remaining arguments joined by spaces form the prompt;
otherwise all arguments joined form the prompt and no sandbox id is set;
an empty prompt is replaced by the fixed default.  (Stated from the
specification text, to be compared with `parseArgs` above.) -/
def parseArgsSpec (args : List String) : Option String × String :=
  let (sid, rawPrompt) :=
    match args with
    | a0 :: rest =>
      if uuidRegexTest a0 then (some a0, String.intercalate " " rest)
      else (none, String.intercalate " " args)
    | [] => (none, "")
  (sid, if rawPrompt = "" then DEFAULT_PROMPT else rawPrompt)

/-- `main` (source lines 391-425): parse the arguments, then run the pipeline. -/
def runMain (w : World) (args : List String) : Outcome × List PAction :=
  runPipeline w (parseArgs args).1 (some (parseArgs args).2)

/-- The `SIGINT` handler (source lines 428-431): it logs a message and
exits with code 0; it performs no sandbox operation. -/
def sigintHandler : Outcome × List PAction := (Outcome.exited 0, [])

/- ### Concrete worlds used as witnesses and counterexamples -/

/-- An oracle under which every remote command succeeds. -/
def okExec : CmdSpec → ExecResult := fun _ => { exitCode := 0, result := "" }

/-- A fully healthy world. -/
def worldOk : World :=
  { daytonaApiKey := some "dk", anthropicApiKey := some "ak",
    sandboxes := ["11111111-1111-1111-1111-111111111111"],
    newSandboxId := "new-sandbox", rootDir := "/home/daytona",
    queryThrew := false, hasViewFile := true, hasPackageJson := true,
    execResult := okExec }

/-- Like `worldOk`, but the generation leaves neither a view file nor a
`package.json` behind. -/
def worldIncomplete : World :=
  { worldOk with hasViewFile := false, hasPackageJson := false }

/-- Like `worldOk`, but the agent SDK install exits non-zero. -/
def worldSdkFail : World :=
  { worldOk with execResult := fun c =>
      if c = installSdkCmd "/home/daytona" then { exitCode := 1, result := "npm ERR" }
      else okExec c }

/-- Like `worldOk`, but publish fails and the registry probe reports the
registry as not reachable. -/
def worldPubUnreachable : World :=
  { worldOk with execResult := fun c =>
      if c = publishCmd "/home/daytona/create-a-button-component" then
        { exitCode := 1, result := "publish error" }
      else if c = checkRegistryCmd "/home/daytona/create-a-button-component" then
        { exitCode := 0, result := "Registry not accessible" }
      else okExec c }

/-- Like `worldOk`, but publish fails while the registry probe succeeds:
the registry is reachable yet rejected the artifact. -/
def worldPubRejected : World :=
  { worldOk with execResult := fun c =>
      if c = publishCmd "/home/daytona/create-a-button-component" then
        { exitCode := 1, result := "publish error" }
      else if c = checkRegistryCmd "/home/daytona/create-a-button-component" then
        { exitCode := 0, result := "oc registry index page" }
      else okExec c }

/- ### Properties of the slug derivation (claim C2) -/

theorem mem_collapseWsAux {c : Char} :
    ∀ (b : Bool) (l : List Char), c ∈ collapseWsAux b l →
      c = '-' ∨ (c ∈ l ∧ isJsSpace c = false) := by
  intro b l
  induction l generalizing b with
  | nil => intro h; simp [collapseWsAux] at h
  | cons d rest ih =>
    intro h
    unfold collapseWsAux at h
    by_cases hd : isJsSpace d = true
    · rw [if_pos hd] at h
      rcases List.mem_append.mp h with h1 | h1
      · left
        cases b with
        | true => simp at h1
        | false => simpa using h1
      · rcases ih true h1 with h2 | ⟨h2, h3⟩
        · exact Or.inl h2
        · exact Or.inr ⟨List.mem_cons_of_mem d h2, h3⟩
    · rw [if_neg hd] at h
      rcases List.mem_cons.mp h with h1 | h1
      · subst h1
        exact Or.inr ⟨List.mem_cons_self c rest, by simpa using hd⟩
      · rcases ih false h1 with h2 | ⟨h2, h3⟩
        · exact Or.inl h2
        · exact Or.inr ⟨List.mem_cons_of_mem d h2, h3⟩

theorem mem_of_mem_trimHyphens {c : Char} {l : List Char}
    (h : c ∈ trimHyphens l) : c ∈ l := by
  unfold trimHyphens at h
  rw [List.mem_reverse] at h
  have h2 := (List.dropWhile_sublist _).subset h
  rw [List.mem_reverse] at h2
  exact (List.dropWhile_sublist _).subset h2

theorem trimHyphens_length_le (l : List Char) :
    (trimHyphens l).length ≤ l.length := by
  unfold trimHyphens
  rw [List.length_reverse]
  calc ((l.dropWhile (fun c => c == '-')).reverse.dropWhile (fun c => c == '-')).length
      ≤ (l.dropWhile (fun c => c == '-')).reverse.length :=
        (List.dropWhile_sublist _).length_le
    _ = (l.dropWhile (fun c => c == '-')).length := List.length_reverse _
    _ ≤ l.length := (List.dropWhile_sublist _).length_le

theorem slugifyChars_length_le (l : List Char) : (slugifyChars l).length ≤ 30 :=
  le_trans (trimHyphens_length_le _) (List.length_take_le _ _)

theorem slugifyChars_chars (l : List Char) :
    ∀ c ∈ slugifyChars l, isSlugChar c = true := by
  intro c hc
  have hc1 : c ∈ (collapseWs (stripSpecials (l.map Char.toLower))).take 30 :=
    mem_of_mem_trimHyphens hc
  have hc2 : c ∈ collapseWs (stripSpecials (l.map Char.toLower)) :=
    (List.take_sublist _ _).subset hc1
  rcases mem_collapseWsAux false _ hc2 with h | ⟨h3, h4⟩
  · simp [isSlugChar, h]
  · have h5 := (List.mem_filter.mp h3).2
    simp only [Bool.or_eq_true] at h5
    rcases h5 with (h6 | h6) | h6
    · simp [isSlugChar, h6]
    · rw [h6] at h4; cases h4
    · simp [isSlugChar, h6]

theorem slugify_length_le (p : String) : (slugify p).length ≤ 30 :=
  slugifyChars_length_le p.toList

theorem slugify_pos (p : String) (h : slugify p ≠ "") : 0 < (slugify p).length := by
  show 0 < (slugifyChars p.toList).length
  rcases hnil : slugifyChars p.toList with _ | ⟨c, rest⟩
  · exact absurd (show slugify p = "" by unfold slugify; rw [hnil]) h
  · simp

theorem slugify_all_slug_chars (p : String) :
    (slugify p).toList.all isSlugChar = true :=
  List.all_eq_true.mpr (fun c hc => slugifyChars_chars p.toList c hc)

/-- C2: for every prompt, the derived component name is non-empty, of
length at most 30, and consists only of characters in [a-z0-9-]; with no
prompt, or whenever the derivation (lowercase, strip, collapse whitespace
to hyphens, truncate, trim hyphens) yields the empty string, the fixed
default name generated-component is used instead. -/
theorem c2_component_name (prompt : Option String) :
    0 < (componentNameOf prompt).length
  ∧ (componentNameOf prompt).length ≤ 30
  ∧ (componentNameOf prompt).toList.all isSlugChar = true
  ∧ componentNameOf none = "generated-component"
  ∧ (∀ p : String, componentNameOf (some p) =
      if p = "" ∨ slugify p = "" then "generated-component" else slugify p) := by
  have hcases : ∀ p : String, componentNameOf (some p) =
      if p = "" ∨ slugify p = "" then "generated-component" else slugify p := by
    intro p
    unfold componentNameOf
    by_cases hp : p = ""
    · simp [hp]
    · by_cases hs : slugify p = ""
      · simp [hp, hs]
      · simp [hp, hs]
  refine ⟨?_, ?_, ?_, rfl, hcases⟩
  · cases prompt with
    | none => decide
    | some p =>
      rw [hcases p]
      by_cases h : p = "" ∨ slugify p = ""
      · rw [if_pos h]; decide
      · rw [if_neg h]
        push_neg at h
        exact slugify_pos p h.2
  · cases prompt with
    | none => decide
    | some p =>
      rw [hcases p]
      by_cases h : p = "" ∨ slugify p = ""
      · rw [if_pos h]; decide
      · rw [if_neg h]
        exact slugify_length_le p
  · cases prompt with
    | none => decide
    | some p =>
      rw [hcases p]
      by_cases h : p = "" ∨ slugify p = ""
      · rw [if_pos h]; decide
      · rw [if_neg h]
        exact slugify_all_slug_chars p

/-- C9: argument parsing of the entrypoint agrees with the specified rule:
a leading UUID-shaped argument is the sandbox id and the remaining
arguments joined by spaces form the prompt; otherwise all arguments joined
form the prompt with no sandbox id; an empty prompt falls back to the
fixed default. -/
theorem c9_parse_args (args : List String) : parseArgs args = parseArgsSpec args := by
  unfold parseArgs parseArgsSpec
  cases args with
  | nil => simp
  | cons a0 rest =>
    by_cases h : uuidRegexTest a0 = true
    · simp [h]
    · simp [h]

/-- C10: if either API-key environment variable is unset, the run
terminates with exit code 1 and performs no sandbox operation at all
(the action trace is empty). -/
theorem c10_missing_env (w : World) (sandboxIdArg prompt : Option String)
    (h : w.daytonaApiKey = none ∨ w.anthropicApiKey = none) :
    runPipeline w sandboxIdArg prompt = (Outcome.exited 1, []) := by
  unfold runPipeline
  rcases h with h | h <;> simp [h, jsTruthy]

/-- A world with the Daytona key missing. -/
def worldNoKeys : World := { worldOk with daytonaApiKey := none }

/-- Witness for C10 at a concrete world. -/
theorem c10_missing_env_witness :
    runPipeline worldNoKeys none (some "Create a button component") =
      (Outcome.exited 1, []) :=
  c10_missing_env worldNoKeys none (some "Create a button component") (Or.inl rfl)

/-- C5: a run given a sandbox id that is not among the environments
returned by the provider halts with the sandbox-not-found error; the only
boundary action performed is the list call, so in particular no command
(tooling install included) is ever executed. -/
theorem c5_sandbox_not_found (w : World) (sid : String) (prompt : Option String)
    (hd : jsTruthy w.daytonaApiKey = true) (ha : jsTruthy w.anthropicApiKey = true)
    (hne : sid ≠ "") (habs : w.sandboxes.contains sid = false) :
    runPipeline w (some sid) prompt =
      (Outcome.threw ("Sandbox " ++ sid ++ " not found"), [PAction.listSandboxes])
    ∧ ∀ c, PAction.exec c ∉ (runPipeline w (some sid) prompt).2 := by
  have habs' : ¬ sid ∈ w.sandboxes := by simpa using habs
  have hmain : runPipeline w (some sid) prompt =
      (Outcome.threw ("Sandbox " ++ sid ++ " not found"), [PAction.listSandboxes]) := by
    unfold runPipeline
    simp [hd, ha, habs', hne]
  refine ⟨hmain, fun c => ?_⟩
  rw [hmain]
  simp

/-- Witness for C5 at a concrete world and id. -/
theorem c5_sandbox_not_found_witness :
    runPipeline worldOk (some "22222222-2222-2222-2222-222222222222") none =
      (Outcome.threw ("Sandbox " ++ "22222222-2222-2222-2222-222222222222" ++ " not found"),
       [PAction.listSandboxes]) :=
  (c5_sandbox_not_found worldOk "22222222-2222-2222-2222-222222222222" none
    (by decide) (by decide) (by decide) (by decide)).1

/- ### C6: the end-to-end run on the concrete prompt -/

/-- C6: on the prompt "Create a button component" with no sandbox id, a
credentialed run in which every remote command succeeds creates a new
sandbox, derives the name create-a-button-component, and returns success
with componentUrl the registry base URL concatenated with the name. -/
theorem c6_end_to_end (w : World)
    (hd : jsTruthy w.daytonaApiKey = true) (ha : jsTruthy w.anthropicApiKey = true)
    (hx : ∀ c, (w.execResult c).exitCode = 0) (hq : w.queryThrew = false) :
    runMain w ["Create", "a", "button", "component"] =
      (Outcome.ok (PipelineResult.mk true w.newSandboxId "create-a-button-component"
          (w.rootDir ++ "/create-a-button-component")
          (REGISTRY_URL ++ "create-a-button-component") REGISTRY_URL),
        [PAction.createSandbox, PAction.getRootDir,
         PAction.exec (installOcCmd w.rootDir),
         PAction.exec (installSdkCmd w.rootDir),
         PAction.exec (ocInitCmd "create-a-button-component" w.rootDir),
         PAction.exec (writeScriptCmd (w.rootDir ++ "/create-a-button-component")),
         PAction.exec (runGenCmd (w.rootDir ++ "/create-a-button-component")),
         PAction.exec (checkFilesCmd (w.rootDir ++ "/create-a-button-component")),
         PAction.exec (buildCmd (w.rootDir ++ "/create-a-button-component")),
         PAction.exec (publishCmd (w.rootDir ++ "/create-a-button-component")),
         PAction.exec (testComponentCmd (REGISTRY_URL ++ "create-a-button-component")
           (w.rootDir ++ "/create-a-button-component"))]) := by
  have hparse : parseArgs ["Create", "a", "button", "component"] =
      (none, "Create a button component") := by decide
  have hname : componentNameOf (some "Create a button component") =
      "create-a-button-component" := by decide
  unfold runMain
  rw [hparse]
  unfold runPipeline afterSandbox
  have hslash : ("/" ++ "create-a-button-component" : String) =
      "/create-a-button-component" := rfl
  simp [hd, ha, hx, hq, hname, genScriptRun, String.append_assoc, hslash]

/-- Witness for C6 at a concrete healthy world. -/
theorem c6_end_to_end_witness :
    runMain worldOk ["Create", "a", "button", "component"] =
      (Outcome.ok (PipelineResult.mk true worldOk.newSandboxId "create-a-button-component"
          (worldOk.rootDir ++ "/create-a-button-component")
          (REGISTRY_URL ++ "create-a-button-component") REGISTRY_URL),
        [PAction.createSandbox, PAction.getRootDir,
         PAction.exec (installOcCmd worldOk.rootDir),
         PAction.exec (installSdkCmd worldOk.rootDir),
         PAction.exec (ocInitCmd "create-a-button-component" worldOk.rootDir),
         PAction.exec (writeScriptCmd (worldOk.rootDir ++ "/create-a-button-component")),
         PAction.exec (runGenCmd (worldOk.rootDir ++ "/create-a-button-component")),
         PAction.exec (checkFilesCmd (worldOk.rootDir ++ "/create-a-button-component")),
         PAction.exec (buildCmd (worldOk.rootDir ++ "/create-a-button-component")),
         PAction.exec (publishCmd (worldOk.rootDir ++ "/create-a-button-component")),
         PAction.exec (testComponentCmd (REGISTRY_URL ++ "create-a-button-component")
           (worldOk.rootDir ++ "/create-a-button-component"))]) :=
  c6_end_to_end worldOk (by decide) (by decide) (fun _ => rfl) rfl

/- ### C1: incomplete artifacts do not block the build -/

/-- C1 fails on the code: in a world where the generation leaves neither a
view file nor a package.json, the incomplete-structure warning is printed,
yet the build command is still executed and the run ends in success, with
no IncompleteArtifact failure. -/
theorem c1_counterexample :
    worldIncomplete.hasViewFile = false ∧ worldIncomplete.hasPackageJson = false
    ∧ (genScriptRun worldIncomplete.queryThrew worldIncomplete.hasViewFile
        worldIncomplete.hasPackageJson).2 = true
    ∧ PAction.exec (buildCmd "/home/daytona/create-a-button-component")
        ∈ (runPipeline worldIncomplete none (some "Create a button component")).2
    ∧ (runPipeline worldIncomplete none (some "Create a button component")).1 =
        Outcome.ok (PipelineResult.mk true "new-sandbox" "create-a-button-component"
          "/home/daytona/create-a-button-component"
          (REGISTRY_URL ++ "create-a-button-component") REGISTRY_URL) := by
  refine ⟨rfl, rfl, rfl, ?_, ?_⟩ <;> decide

/-- C1 amended: the missing view/manifest files only produce a logged
warning; the build command is executed whenever the installs, the
scaffold and the generation command succeed, regardless of whether the
view file and the manifest file exist. -/
theorem c1_amended_build_runs (w : World) (prompt : Option String)
    (hd : jsTruthy w.daytonaApiKey = true) (ha : jsTruthy w.anthropicApiKey = true)
    (h1 : (w.execResult (installOcCmd w.rootDir)).exitCode = 0)
    (h2 : (w.execResult (ocInitCmd (componentNameOf prompt) w.rootDir)).exitCode = 0)
    (hq : w.queryThrew = false) :
    PAction.exec (buildCmd (w.rootDir ++ "/" ++ componentNameOf prompt))
      ∈ (runPipeline w none prompt).2 := by
  by_cases hb : (w.execResult (buildCmd (w.rootDir ++ "/" ++ componentNameOf prompt))).exitCode = 0 <;>
  by_cases hp : (w.execResult (publishCmd (w.rootDir ++ "/" ++ componentNameOf prompt))).exitCode = 0 <;>
    (unfold runPipeline afterSandbox; simp [hd, ha, h1, h2, hq, hb, hp, genScriptRun])

/-- Witness for the amended C1 at the incomplete-artifact world. -/
theorem c1_amended_build_runs_witness :
    PAction.exec (buildCmd (worldIncomplete.rootDir ++ "/"
        ++ componentNameOf (some "Create a button component")))
      ∈ (runPipeline worldIncomplete none (some "Create a button component")).2 :=
  c1_amended_build_runs worldIncomplete (some "Create a button component")
    (by decide) (by decide) rfl rfl rfl

/- ### C4: only the first tooling install is checked -/

/-- C4 fails on the code: the agent SDK install exits non-zero, yet the
pipeline proceeds to the scaffold command and the run still succeeds; no
ToolInstallFailed error is raised for the second install. -/
theorem c4_counterexample :
    (worldSdkFail.execResult (installSdkCmd "/home/daytona")).exitCode = 1
    ∧ PAction.exec (ocInitCmd "create-a-button-component" "/home/daytona")
        ∈ (runPipeline worldSdkFail none (some "Create a button component")).2
    ∧ (runPipeline worldSdkFail none (some "Create a button component")).1 =
        Outcome.ok (PipelineResult.mk true "new-sandbox" "create-a-button-component"
          "/home/daytona/create-a-button-component"
          (REGISTRY_URL ++ "create-a-button-component") REGISTRY_URL) := by
  refine ⟨by decide, ?_, ?_⟩ <;> decide

/-- C4 amended: only the component-build CLI install is checked — a
non-zero exit there fails the run with the install error before any
scaffold command; the agent SDK install is executed but its exit code is
ignored, the scaffold command being reached whenever the first install
exits zero. -/
theorem c4_amended_first_install_checked (w : World) (prompt : Option String)
    (hd : jsTruthy w.daytonaApiKey = true) (ha : jsTruthy w.anthropicApiKey = true) :
    ((w.execResult (installOcCmd w.rootDir)).exitCode ≠ 0 →
      runPipeline w none prompt =
        (Outcome.threw "Failed to install OpenComponents CLI",
         [PAction.createSandbox, PAction.getRootDir,
          PAction.exec (installOcCmd w.rootDir)]))
    ∧ ((w.execResult (installOcCmd w.rootDir)).exitCode = 0 →
        PAction.exec (ocInitCmd (componentNameOf prompt) w.rootDir)
          ∈ (runPipeline w none prompt).2) := by
  constructor
  · intro hfail
    unfold runPipeline afterSandbox
    simp [hd, ha, hfail]
  · intro hok
    by_cases hi : (w.execResult (ocInitCmd (componentNameOf prompt) w.rootDir)).exitCode = 0 <;>
    by_cases hg : (genScriptRun w.queryThrew w.hasViewFile w.hasPackageJson).1 = 0 <;>
    by_cases hb : (w.execResult (buildCmd (w.rootDir ++ "/" ++ componentNameOf prompt))).exitCode = 0 <;>
    by_cases hp : (w.execResult (publishCmd (w.rootDir ++ "/" ++ componentNameOf prompt))).exitCode = 0 <;>
      (unfold runPipeline afterSandbox; simp [hd, ha, hok, hi, hg, hb, hp])

/-- Witness for the amended C4 at the failing-SDK-install world. -/
theorem c4_amended_first_install_checked_witness :
    PAction.exec (ocInitCmd (componentNameOf (some "Create a button component"))
        worldSdkFail.rootDir)
      ∈ (runPipeline worldSdkFail none (some "Create a button component")).2 :=
  (c4_amended_first_install_checked worldSdkFail (some "Create a button component")
    (by decide) (by decide)).2 rfl

/- ### C3: publish failures are not differentiated -/

/-- C3 fails on the code: two worlds that differ precisely in what the
registry probe reports — one unreachable, one reachable but rejecting —
produce the identical run, ending in the one fixed publish-failure error;
the two cases are conflated. -/
theorem c3_counterexample :
    worldPubUnreachable.execResult
        (checkRegistryCmd "/home/daytona/create-a-button-component")
      ≠ worldPubRejected.execResult
        (checkRegistryCmd "/home/daytona/create-a-button-component")
    ∧ runPipeline worldPubUnreachable none (some "Create a button component")
      = runPipeline worldPubRejected none (some "Create a button component")
    ∧ (runPipeline worldPubUnreachable none (some "Create a button component")).1
      = Outcome.threw "Component publish failed - check if registry is running" := by
  refine ⟨by decide, rfl, rfl⟩

/-- C3 amended: on a publish failure the pipeline does execute the
registry reachability probe, but then always raises the one fixed
publish-failure error, whatever the probe reported: the probe output is
only logged, and reachable and unreachable registries yield the same
failure outcome. -/
theorem c3_amended_single_publish_error (w : World) (prompt : Option String)
    (hd : jsTruthy w.daytonaApiKey = true) (ha : jsTruthy w.anthropicApiKey = true)
    (h1 : (w.execResult (installOcCmd w.rootDir)).exitCode = 0)
    (h2 : (w.execResult (ocInitCmd (componentNameOf prompt) w.rootDir)).exitCode = 0)
    (hq : w.queryThrew = false)
    (hb : (w.execResult (buildCmd (w.rootDir ++ "/" ++ componentNameOf prompt))).exitCode = 0)
    (hp : (w.execResult (publishCmd (w.rootDir ++ "/" ++ componentNameOf prompt))).exitCode ≠ 0) :
    (runPipeline w none prompt).1 =
      Outcome.threw "Component publish failed - check if registry is running"
    ∧ PAction.exec (checkRegistryCmd (w.rootDir ++ "/" ++ componentNameOf prompt))
        ∈ (runPipeline w none prompt).2 := by
  unfold runPipeline afterSandbox
  constructor <;> simp [hd, ha, h1, h2, hq, hb, hp, genScriptRun]

/-- Witness for the amended C3 at the unreachable-registry world. -/
theorem c3_amended_single_publish_error_witness :
    (runPipeline worldPubUnreachable none (some "Create a button component")).1 =
      Outcome.threw "Component publish failed - check if registry is running"
    ∧ PAction.exec (checkRegistryCmd (worldPubUnreachable.rootDir ++ "/"
        ++ componentNameOf (some "Create a button component")))
        ∈ (runPipeline worldPubUnreachable none (some "Create a button component")).2 :=
  c3_amended_single_publish_error worldPubUnreachable (some "Create a button component")
    (by decide) (by decide) (by decide) (by decide) rfl (by decide) (by decide)

/- ### C8: not every remote command carries a timeout -/

/-- C8 fails on the code: in a fully successful run both the scaffold
command and the verification probe appear in the trace, and neither
carries a timeout. -/
theorem c8_counterexample :
    PAction.exec (ocInitCmd "create-a-button-component" "/home/daytona")
      ∈ (runPipeline worldOk none (some "Create a button component")).2
    ∧ (ocInitCmd "create-a-button-component" "/home/daytona").timeoutMs = none
    ∧ PAction.exec (testComponentCmd (REGISTRY_URL ++ "create-a-button-component")
        "/home/daytona/create-a-button-component")
      ∈ (runPipeline worldOk none (some "Create a button component")).2
    ∧ (testComponentCmd (REGISTRY_URL ++ "create-a-button-component")
        "/home/daytona/create-a-button-component").timeoutMs = none := by
  refine ⟨?_, rfl, ?_, rfl⟩ <;> decide

/-- C8 amended: the two tooling installs, the generation command, the
build and the publish each carry their own bounded timeout (3, 3, 10, 3
and 3 minutes), but the scaffold command and the verification probe are
issued without an explicit timeout. -/
theorem c8_amended_timeout_policy :
    (∀ d, (installOcCmd d).timeoutMs = some 180000)
  ∧ (∀ d, (installSdkCmd d).timeoutMs = some 180000)
  ∧ (∀ d, (runGenCmd d).timeoutMs = some 600000)
  ∧ (∀ d, (buildCmd d).timeoutMs = some 180000)
  ∧ (∀ d, (publishCmd d).timeoutMs = some 180000)
  ∧ (∀ n d, (ocInitCmd n d).timeoutMs = none)
  ∧ (∀ u d, (testComponentCmd u d).timeoutMs = none) :=
  ⟨fun _ => rfl, fun _ => rfl, fun _ => rfl, fun _ => rfl, fun _ => rfl,
   fun _ _ => rfl, fun _ _ => rfl⟩

/- ### C7: the sandbox is never torn down -/

theorem afterSandbox_no_teardown (w : World) (sid : String) (prompt : Option String)
    (tr0 : List PAction) (h0 : ∀ a ∈ tr0, a.isTeardown = false) :
    ∀ a ∈ (afterSandbox w sid prompt tr0).2, a.isTeardown = false := by
  intro a ha
  unfold afterSandbox at ha
  by_cases h1 : (w.execResult (installOcCmd w.rootDir)).exitCode = 0 <;>
  by_cases h2 : (w.execResult (ocInitCmd (componentNameOf prompt) w.rootDir)).exitCode = 0 <;>
  by_cases hg : (genScriptRun w.queryThrew w.hasViewFile w.hasPackageJson).1 = 0 <;>
  by_cases hb : (w.execResult (buildCmd (w.rootDir ++ "/" ++ componentNameOf prompt))).exitCode = 0 <;>
  by_cases hp : (w.execResult (publishCmd (w.rootDir ++ "/" ++ componentNameOf prompt))).exitCode = 0 <;>
    (simp only [h1, h2, hg, hb, hp, ne_eq, not_true_eq_false, not_false_eq_true,
      ite_true, ite_false, if_pos, if_neg, List.mem_append, List.mem_cons,
      List.mem_singleton, List.not_mem_nil, or_false] at ha ;
     casesm* _ ∨ _ <;>
     first
       | exact h0 a (by assumption)
       | (subst_vars ; rfl))

/-- C7: no run of the pipeline ever performs a teardown action on the
sandbox — the trace never contains a delete or stop — and the interrupt
handler likewise performs no sandbox action at all. -/
theorem c7_no_teardown (w : World) (sandboxIdArg prompt : Option String) (a : PAction)
    (ha : a ∈ (runPipeline w sandboxIdArg prompt).2) :
    a.isTeardown = false ∧ sigintHandler.2 = [] := by
  refine ⟨?_, rfl⟩
  unfold runPipeline at ha
  by_cases henv : (!jsTruthy w.daytonaApiKey || !jsTruthy w.anthropicApiKey) = true
  · rw [if_pos henv] at ha
    simp at ha
  · rw [if_neg henv] at ha
    match hmatch : sandboxIdArg with
    | some sid =>
      dsimp only at ha
      by_cases hne : (sid != "") = true
      · rw [if_pos hne] at ha
        by_cases hmem : w.sandboxes.contains sid = true
        · rw [if_pos hmem] at ha
          exact afterSandbox_no_teardown w sid prompt _ (by intro x hx; simp at hx; subst hx; rfl) a ha
        · rw [if_neg hmem] at ha
          simp at ha
          subst ha; rfl
      · rw [if_neg hne] at ha
        exact afterSandbox_no_teardown w w.newSandboxId prompt _ (by intro x hx; simp at hx; subst hx; rfl) a ha
    | none =>
      dsimp only at ha
      exact afterSandbox_no_teardown w w.newSandboxId prompt _ (by intro x hx; simp at hx; subst hx; rfl) a ha

/-- Witness for C7 at a concrete run. -/
theorem c7_no_teardown_witness :
    PAction.listSandboxes.isTeardown = false ∧ sigintHandler.2 = [] :=
  c7_no_teardown worldOk (some "22222222-2222-2222-2222-222222222222") none
    PAction.listSandboxes (by decide)
